import Mathlib

/-!
Verification of the Art Beyond Sight backend (src/backend/main.py), a FastAPI
CRUD facade over a MongoDB collection plus an image upload endpoint and a
proxy to an external vision-detection API.  The Python handlers are shallowly
embedded as pure Lean functions: the MongoDB collection becomes an explicit
`Store` value threaded through each handler, clock readings (`datetime.utcnow`
and friends) become explicit `DateTime` arguments, the local file system of
the temp-image directory becomes an association list, and exceptions /
HTTP error responses become `Except HttpError`.
-/

/-! ## JSON values (for open `metadata` dicts and the detection proxy) -/

/-- JSON-compatible values.  Numbers keep the integer part and the literal
fraction digits (Python floats are only inspected at integer points by the
code paths the claims exercise). -/
inductive Json where
  | null : Json
  | bool (bv : Bool) : Json
  | num (intPart : Int) (fracDigits : String) : Json
  | str (sv : String) : Json
  | arr (items : List Json) : Json
  | obj (fields : List (String × Json)) : Json

/-! ## Datetimes and ISO-8601 rendering

`datetime.utcnow()` values are modelled as broken-down timestamps; Python
guarantees 1 <= year <= 9999 and the usual field ranges, captured by
`ValidDateTime`.  `isoformat` mirrors `datetime.isoformat()`: seconds
precision, with a 6-digit fraction appended exactly when `microsecond != 0`. -/

structure DateTime where
  year : Nat
  month : Nat
  day : Nat
  hour : Nat
  minute : Nat
  second : Nat
  microsecond : Nat
deriving DecidableEq, Repr

/-- Linearization of a broken-down timestamp; on valid datetimes it is
order-isomorphic to chronological order. -/
def dtKey (t : DateTime) : Nat :=
  ((((t.year * 13 + t.month) * 32 + t.day) * 24 + t.hour) * 60 + t.minute) * 60
      * 1000000 + t.second * 1000000 + t.microsecond

/-- Strict chronological order on datetimes. -/
def dtLt (a b : DateTime) : Prop := dtKey a < dtKey b

instance (a b : DateTime) : Decidable (dtLt a b) := by unfold dtLt; infer_instance

/-- The decimal digit character for `n < 10` (fallback never reached on
in-range inputs). -/
def digitChar (n : Nat) : Char :=
  match n with
  | 0 => '0' | 1 => '1' | 2 => '2' | 3 => '3' | 4 => '4'
  | 5 => '5' | 6 => '6' | 7 => '7' | 8 => '8' | 9 => '9'
  | _ => '*'

/-- Two-digit zero-padded rendering (for n < 100). -/
def pad2 (n : Nat) : List Char := [digitChar (n / 10 % 10), digitChar (n % 10)]

/-- Four-digit zero-padded rendering (for n < 10000). -/
def pad4 (n : Nat) : List Char :=
  [digitChar (n / 1000 % 10), digitChar (n / 100 % 10),
   digitChar (n / 10 % 10), digitChar (n % 10)]

/-- Six-digit zero-padded rendering (for n < 1000000). -/
def pad6 (n : Nat) : List Char :=
  [digitChar (n / 100000 % 10), digitChar (n / 10000 % 10),
   digitChar (n / 1000 % 10), digitChar (n / 100 % 10),
   digitChar (n / 10 % 10), digitChar (n % 10)]

/-- Character list of `datetime.isoformat()`:
`YYYY-MM-DDTHH:MM:SS[.ffffff]`, the fraction present iff microsecond is
nonzero. -/
def iso8601List (t : DateTime) : List Char :=
  pad4 t.year ++ '-' :: pad2 t.month ++ '-' :: pad2 t.day ++
  'T' :: pad2 t.hour ++ ':' :: pad2 t.minute ++ ':' :: pad2 t.second ++
  (if t.microsecond = 0 then [] else '.' :: pad6 t.microsecond)

/-- Model of `datetime.isoformat()`. -/
def isoformat (t : DateTime) : String := String.mk (iso8601List t)

/-- Decimal digit test on characters. -/
def isDigitCh (c : Char) : Bool := decide ('0' ≤ c) && decide (c ≤ '9')

/-- Numeric value of a digit character. -/
def chVal (c : Char) : Nat := c.toNat - 48

/-! ## HTTP errors -/

/-- An `HTTPException` surfaced to the caller. -/
structure HttpError where
  status : Nat
  detail : String
deriving DecidableEq, Repr

/-! ## Base64 decoding (`base64.b64decode`, default validate=False)

With `validate=False`, characters outside the alphabet (and padding) are
discarded before decoding; the remaining characters must form complete
4-character groups, with `=` padding only at the end, otherwise
`binascii.Error` is raised (modelled as `none`). -/

/-- Value of a base64 alphabet character. -/
def b64Val (c : Char) : Option Nat :=
  if decide ('A' ≤ c) && decide (c ≤ 'Z') then some (c.toNat - 65)
  else if decide ('a' ≤ c) && decide (c ≤ 'z') then some (c.toNat - 97 + 26)
  else if decide ('0' ≤ c) && decide (c ≤ '9') then some (c.toNat - 48 + 52)
  else if c = '+' then some 62
  else if c = '/' then some 63
  else none

/-- Whether a character belongs to the base64 alphabet. -/
def isB64Alpha (c : Char) : Bool := (b64Val c).isSome

/-- Decode filtered base64 characters in 4-character groups; `=` padding only
in the final group. -/
def decodeB64Chunks : List Char → Option (List Nat)
  | [] => some []
  | a :: b :: c :: d :: rest =>
    match b64Val a, b64Val b with
    | some va, some vb =>
      if c = '=' then
        if d = '=' && rest.isEmpty then some [va * 4 + vb / 16] else none
      else
        match b64Val c with
        | some vc =>
          if d = '=' then
            if rest.isEmpty then some [va * 4 + vb / 16, vb % 16 * 16 + vc / 4]
            else none
          else
            match b64Val d with
            | some vd =>
              match decodeB64Chunks rest with
              | some tail =>
                some ([va * 4 + vb / 16, vb % 16 * 16 + vc / 4, vc % 4 * 64 + vd] ++ tail)
              | none => none
            | none => none
        | none => none
    | _, _ => none
  | _ => none

/-- Model of `base64.b64decode(s)` with the default `validate=False`: discard
characters outside the alphabet (keeping `=`), then decode; `none` models a
raised `binascii.Error`. -/
def b64decode (s : String) : Option (List Nat) :=
  decodeB64Chunks (s.data.filter (fun c => isB64Alpha c || c = '='))

/-! ## Temp image store (`/api/upload-temp-image` and the static mount) -/

/-- The `temp_images/` directory: file name to byte contents. -/
def FileSys := List (String × List Nat)

/-- Writing a file (`open(filepath, "wb")` truncates any existing file). -/
def fsWrite (fs : FileSys) (name : String) (bytes : List Nat) : FileSys :=
  (name, bytes) :: fs.filter (fun p => p.1 ≠ name)

/-- Request body of POST /api/upload-temp-image. -/
structure UploadImageRequest where
  image_base64 : String

/-- Response body of POST /api/upload-temp-image. -/
structure UploadImageResponse where
  image_url : String
  image_id : String
deriving DecidableEq, Repr

/-- Drop a literal leading segment from a character list, returning the
remainder when the segment matches. -/
def stripLead : List Char → List Char → Option (List Char)
  | [], rest => some rest
  | _ :: _, [] => none
  | p :: ps, c :: cs => if p = c then stripLead ps cs else none

/-- Result of `request.image_base64.split(",", 1)[1]` when the payload starts with
`data:`, otherwise the payload itself; `none` models the `IndexError` raised
when a `data:`-prefixed payload has no comma. -/
def stripDataUrl (s : String) : Option String :=
  match stripLead ("data:").data s.data with
  | some _ =>
    match (s.data.span (fun c => c ≠ ',')).2 with
    | _ :: after => some (String.mk after)
    | [] => none
  | none => some s

/-- Handler of POST /api/upload-temp-image (`upload_temp_image` in
src/backend/main.py): strip an optional data-URL header, base64-decode,
write the bytes under `<uuid>.jpg`, and return the URL.  Any exception is
converted to a 400 by the blanket `except`.  The freshly generated
`uuid.uuid4()` is passed in as `imageId`. -/
def upload_temp_image (imageId : String) (fs : FileSys) (request : UploadImageRequest) :
    FileSys × Except HttpError UploadImageResponse :=
  match stripDataUrl request.image_base64 with
  | none =>
    (fs, .error ⟨400, "Failed to upload image: list index out of range"⟩)
  | some base64_data =>
    match b64decode base64_data with
    | none =>
      (fs, .error ⟨400, "Failed to upload image: Invalid base64-encoded string"⟩)
    | some image_bytes =>
      let filename := imageId ++ ".jpg"
      (fsWrite fs filename image_bytes,
       .ok ⟨"http://localhost:8000/temp_images/" ++ filename, imageId⟩)

/-- The static mount at /temp_images: fetch the bytes a URL produced by the
upload endpoint points at. -/
def serveTempImage (fs : FileSys) (url : String) : Option (List Nat) :=
  match stripLead ("http://localhost:8000/temp_images/").data url.data with
  | some rest => List.lookup (String.mk rest) fs
  | none => none

/-! ## The MongoDB collection and the analysis-record handlers -/

/-- A stored `artifacts` document (after insertion, so carrying its `_id`). -/
structure AnalysisDoc where
  oid : String
  image_name : String
  analysis_type : String
  descriptions : List String
  metadata : List (String × Json)
  image_url : Option String
  image_base64 : Option String
  created_at : DateTime
  updated_at : DateTime

/-- The MongoDB `artifacts` collection: documents in natural (insertion)
order, plus the counter the next generated ObjectId is derived from. -/
structure Store where
  docs : List AnalysisDoc
  nextOid : Nat

/-- The empty collection. -/
def emptyStore : Store := ⟨[], 0⟩

/-- Hexadecimal digit test. -/
def isHexCh (c : Char) : Bool :=
  isDigitCh c || (decide ('a' ≤ c) && decide (c ≤ 'f')) ||
    (decide ('A' ≤ c) && decide (c ≤ 'F'))

/-- Whether a string is accepted by `bson.ObjectId(...)`: exactly 24
hexadecimal characters (the 12-byte forms do not arise from URL path
parameters).  An invalid string makes the constructor raise `InvalidId`. -/
def isValidObjectId (s : String) : Bool :=
  s.data.length = 24 && s.data.all isHexCh

/-- Model of `collection.find_one` with an id filter: first document in natural order with
the given id. -/
def findDoc (s : Store) (oid : String) : Option AnalysisDoc :=
  s.docs.find? (fun d => d.oid == oid)

/-- Model of `collection.update_one` with an id filter: rewrite the first matching
document only. -/
def updateDocs (docs : List AnalysisDoc) (oid : String) (f : AnalysisDoc → AnalysisDoc) :
    List AnalysisDoc :=
  match docs with
  | [] => []
  | d :: rest => if d.oid == oid then f d :: rest else d :: updateDocs rest oid f

/-- Request body of the analysis POST endpoints (`ImageAnalysisRequest`). -/
structure ImageAnalysisRequest where
  image_url : Option String
  image_base64 : Option String
  image_name : String
  analysis_type : String
  descriptions : Option (List String)
  metadata : Option (List (String × Json))

/-- Request body of PUT /api/image-analysis/{id} (`ImageAnalysisUpdate`). -/
structure ImageAnalysisUpdate where
  descriptions : Option (List String)
  metadata : Option (List (String × Json))

/-- A document as returned to the caller by `serialize_doc`: `_id` renamed to
the string field `id`, datetimes rendered as ISO-8601 strings. -/
structure SerializedDoc where
  id : String
  image_name : String
  analysis_type : String
  descriptions : List String
  metadata : List (String × Json)
  image_url : Option String
  image_base64 : Option String
  created_at : String
  updated_at : String

/-- Function `serialize_doc` from src/backend/main.py. -/
def serialize_doc (d : AnalysisDoc) : SerializedDoc :=
  ⟨d.oid, d.image_name, d.analysis_type, d.descriptions, d.metadata,
   d.image_url, d.image_base64, isoformat d.created_at, isoformat d.updated_at⟩

/-- Response dict built inline by the create handler (it carries no
`image_url`/`image_base64` keys, unlike `serialize_doc` output). -/
structure CreateResponse where
  id : String
  image_name : String
  analysis_type : String
  descriptions : List String
  metadata : List (String × Json)
  created_at : String
  updated_at : String

/-- Handler of POST /api/image-analysis registered first
(`create_image_analysis` in src/backend/main.py); by FastAPI route
resolution this first registration is the one reachable at runtime.  The
`from datetime import datetime` inside its `except` block (line 167) makes
`datetime` a local name throughout the function body, so the references
`datetime.utcnow()` at lines 151-152 — evaluated while building the document,
before that import runs and outside any `try` — raise `UnboundLocalError` on
every call.  The unhandled exception surfaces as an HTTP 500 regardless of
store availability; neither the insert nor the `mock_` identifier fallback at
line 168 is ever reached, and nothing is persisted. -/
def create_image_analysis (avail : Bool) (s : Store)
    (analysis : ImageAnalysisRequest) : Store × Except HttpError CreateResponse :=
  (s, .error ⟨500, "Internal Server Error"⟩)

/-- Newest-`created_at`-first comparison used by `.sort("created_at", -1)`. -/
def newestFirst (a b : AnalysisDoc) : Prop := dtKey b.created_at ≤ dtKey a.created_at

instance : DecidableRel newestFirst := fun a b => Nat.decLe _ _

/-- Semantics of `cursor.limit(n)` in the MongoDB driver: 0 means no limit, a
negative value caps at its absolute value. -/
def mongoLimit (n : Int) (l : List AnalysisDoc) : List AnalysisDoc :=
  if n = 0 then l else l.take n.natAbs

/-- The query filter of the list handler: the truthiness test
`if analysis_type:` is falsy both for an absent parameter and for the empty
string, so only a non-empty `analysis_type` filters; an empty one returns
everything. -/
def queryFilter (s : Store) (analysis_type : Option String) : List AnalysisDoc :=
  match analysis_type with
  | some t => if t == "" then s.docs else s.docs.filter (fun d => d.analysis_type == t)
  | none => s.docs

/-- The document list produced by the list handler before serialization:
query filter, newest-first sort, then the driver limit. -/
def get_all_docs (s : Store) (analysis_type : Option String) (limit : Int) :
    List AnalysisDoc :=
  mongoLimit limit (List.insertionSort newestFirst (queryFilter s analysis_type))

/-- Handler of GET /api/image-analysis (`get_all_analyses` in
src/backend/main.py); the FastAPI query parameter `limit` defaults to 50.
Store failure surfaces as a 500. -/
def get_all_analyses (avail : Bool) (s : Store) (analysis_type : Option String)
    (limit : Int) : Except HttpError (List SerializedDoc) :=
  if avail then .ok ((get_all_docs s analysis_type limit).map serialize_doc)
  else .error ⟨500, "Failed to retrieve analyses: connection timeout"⟩

/-- Handler of GET /api/image-analysis/{analysis_id} (`get_analysis_by_id` in
src/backend/main.py).  The `raise HTTPException(404)` sits inside the `try`
block whose `except Exception` clause catches it (starlette HTTPException
subclasses Exception) and re-raises it as a 500, so the absent-document case
surfaces as a 500 whose detail embeds the 404 message; a malformed id makes
the ObjectId constructor raise, also a 500. -/
def get_analysis_by_id (avail : Bool) (s : Store) (analysis_id : String) :
    Except HttpError SerializedDoc :=
  if avail then
    if isValidObjectId analysis_id then
      match findDoc s analysis_id with
      | none => .error ⟨500, "Failed to retrieve analysis: 404: Analysis not found"⟩
      | some doc => .ok (serialize_doc doc)
    else .error ⟨500, "Failed to retrieve analysis: InvalidId"⟩
  else .error ⟨500, "Failed to retrieve analysis: connection timeout"⟩

/-- The `$set` document of the update handler applied to a stored document:
always refreshes `updated_at`, and overwrites `descriptions`/`metadata`
exactly when present in the request body. -/
def applyUpdate (update_data : ImageAnalysisUpdate) (t : DateTime)
    (d : AnalysisDoc) : AnalysisDoc :=
  { d with
    updated_at := t,
    descriptions := update_data.descriptions.getD d.descriptions,
    metadata := update_data.metadata.getD d.metadata }

/-- Handler of PUT /api/image-analysis/{analysis_id} (`update_analysis` in
src/backend/main.py): `$set` of `updated_at` (a fresh `utcnow()` reading,
`t`) plus whichever of `descriptions`/`metadata` is present, on the first
document matching the id; the updated document is re-read and serialized.
As in the get handler, the 404 raised on `matched_count == 0` is swallowed
by the blanket `except` and surfaces as a 500. -/
def update_analysis (avail : Bool) (t : DateTime) (s : Store) (analysis_id : String)
    (update_data : ImageAnalysisUpdate) : Store × Except HttpError SerializedDoc :=
  if avail then
    if isValidObjectId analysis_id then
      match findDoc s analysis_id with
      | none => (s, .error ⟨500, "Failed to update analysis: 404: Analysis not found"⟩)
      | some _ =>
        match findDoc ⟨updateDocs s.docs analysis_id (applyUpdate update_data t),
            s.nextOid⟩ analysis_id with
        | some updated_doc =>
          (⟨updateDocs s.docs analysis_id (applyUpdate update_data t), s.nextOid⟩,
           .ok (serialize_doc updated_doc))
        | none =>
          (⟨updateDocs s.docs analysis_id (applyUpdate update_data t), s.nextOid⟩,
           .error ⟨500, "Failed to update analysis: unreachable"⟩)
    else (s, .error ⟨500, "Failed to update analysis: InvalidId"⟩)
  else (s, .error ⟨500, "Failed to update analysis: connection timeout"⟩)

/-- Handler of POST /api/image-analysis registered second
(`create_or_update_image_analysis` in src/backend/main.py), shadowed at
runtime by the create handler.  Even when invoked directly, building the
document evaluates `datetime.now(datetime.timezone.utc)` where `datetime` is
the imported class, which has no `timezone` attribute: the expression raises
`AttributeError` on every call, after the initial `find_one` and before any
write, so the handler always answers 500 and never modifies the store
(when the store is unreachable the initial `find_one` raises instead, with
the same outcome). -/
def create_or_update_image_analysis (avail : Bool) (s : Store)
    (analysis : ImageAnalysisRequest) : Store × Except HttpError SerializedDoc :=
  if avail then
    (s, .error ⟨500,
      "Failed to save or update analysis: type object datetime has no attribute timezone"⟩)
  else
    (s, .error ⟨500, "Failed to save or update analysis: connection timeout"⟩)

/-- Number of stored documents carrying a given natural key. -/
def countByKey (s : Store) (image_name analysis_type : String) : Nat :=
  (s.docs.filter (fun d => d.image_name == image_name && d.analysis_type == analysis_type)).length

/-- A store holding exactly one record, of analysis_type "museum", used to
exercise the list endpoint at concrete inputs. -/
def listDemoStore : Store :=
  ⟨[⟨"aaaaaaaaaaaaaaaaaaaaaaaa", "img", "museum", [], [], none, none,
      ⟨2024, 6, 1, 12, 0, 0, 0⟩, ⟨2024, 6, 1, 12, 0, 0, 0⟩⟩], 1⟩

/-! ## Detection proxy (POST /api/detect-artwork) -/

/-- Response body of POST /api/detect-artwork.  `confidence` is the number
passed through as integer part and literal fraction digits (the claims only
inspect the exact integers 0 and 50). -/
structure DetectArtworkResponse where
  title : String
  description : String
  confidence : Int × String
deriving DecidableEq, Repr

/-- First match of the pattern of a brace-delimited run without inner
closing braces (the regex at src/backend/main.py line 360): scan for a `\x7b`
followed by at least one character other than `\x7d` and then a `\x7d`;
a failed attempt resumes one character further, as the regex engine does. -/
def extractBraced : List Char → Option (List Char)
  | [] => none
  | c :: rest =>
    if c = '{' then
      match rest.span (fun x => x ≠ '}') with
      | (run, '}' :: _) =>
        if run.isEmpty then extractBraced rest
        else some ('{' :: run ++ ['}'])
      | _ => none
    else extractBraced rest

/-- Whitespace skipped by the JSON grammar. -/
def skipWs (cs : List Char) : List Char :=
  cs.dropWhile (fun c => c = ' ' || c = '\n' || c = '\t' || c = '\r')

/-- Scan a JSON string body up to the closing quote, handling the common
single-character escapes. -/
def scanJsonString : Nat → List Char → Option (String × List Char)
  | 0, _ => none
  | Nat.succ fuel, cs =>
    match cs with
    | [] => none
    | '"' :: rest => some ("", rest)
    | '\\' :: e :: rest =>
      match scanJsonString fuel rest with
      | some (s, rem) =>
        let esc := List.lookup e
          [('"', '"'), ('\\', '\\'), ('/', '/'), ('n', '\n'), ('t', '\t'), ('r', '\r')]
        match esc with
        | some c => some (String.mk (c :: s.data), rem)
        | none => none
      | none => none
    | c :: rest =>
      match scanJsonString fuel rest with
      | some (s, rem) => some (String.mk (c :: s.data), rem)
      | none => none

/-- Scan a run of decimal digits. -/
def scanDigits (cs : List Char) : List Char × List Char :=
  cs.span isDigitCh

/-- Parse an unsigned decimal number with optional fraction. -/
def parseJsonNumber (cs : List Char) : Option (Int × String × List Char) :=
  match scanDigits cs with
  | ([], _) => none
  | (ds, rest) =>
    let ip : Int := Int.ofNat (ds.foldl (fun acc c => acc * 10 + chVal c) 0)
    match rest with
    | '.' :: rest2 =>
      match scanDigits rest2 with
      | ([], _) => none
      | (fs, rest3) => some (ip, String.mk fs, rest3)
    | _ => some (ip, "", rest)

mutual

/-- Parse one JSON value (fuel-bounded recursive descent mirroring
`json.loads` on the fragments the handler feeds it). -/
def parseJsonValue : Nat → List Char → Option (Json × List Char)
  | 0, _ => none
  | Nat.succ fuel, cs =>
    match skipWs cs with
    | '"' :: rest =>
      match scanJsonString (rest.length + 1) rest with
      | some (s, rem) => some (.str s, rem)
      | none => none
    | '{' :: rest =>
      match skipWs rest with
      | '}' :: rem => some (.obj [], rem)
      | _ =>
        match parseJsonMembers fuel rest with
        | some (ms, rem) => some (.obj ms, rem)
        | none => none
    | '[' :: rest =>
      match skipWs rest with
      | ']' :: rem => some (.arr [], rem)
      | _ =>
        match parseJsonElems fuel rest with
        | some (es, rem) => some (.arr es, rem)
        | none => none
    | rest =>
      match stripLead ("true").data rest with
      | some rem => some (.bool true, rem)
      | none =>
        match stripLead ("false").data rest with
        | some rem => some (.bool false, rem)
        | none =>
          match stripLead ("null").data rest with
          | some rem => some (.null, rem)
          | none =>
            match rest with
            | '-' :: rest2 =>
              match parseJsonNumber rest2 with
              | some (i, f, rem) => some (.num (-i) f, rem)
              | none => none
            | _ =>
              match parseJsonNumber rest with
              | some (i, f, rem) => some (.num i f, rem)
              | none => none

/-- Parse the members of a JSON object after the opening brace. -/
def parseJsonMembers : Nat → List Char → Option (List (String × Json) × List Char)
  | 0, _ => none
  | Nat.succ fuel, cs =>
    match skipWs cs with
    | '"' :: rest =>
      match scanJsonString (rest.length + 1) rest with
      | some (key, rem) =>
        match skipWs rem with
        | ':' :: rem2 =>
          match parseJsonValue fuel rem2 with
          | some (v, rem3) =>
            match skipWs rem3 with
            | ',' :: rem4 =>
              match parseJsonMembers fuel rem4 with
              | some (ms, rem5) => some ((key, v) :: ms, rem5)
              | none => none
            | '}' :: rem4 => some ([(key, v)], rem4)
            | _ => none
          | none => none
        | _ => none
      | none => none
    | _ => none

/-- Parse the elements of a JSON array after the opening bracket. -/
def parseJsonElems : Nat → List Char → Option (List Json × List Char)
  | 0, _ => none
  | Nat.succ fuel, cs =>
    match parseJsonValue fuel cs with
    | some (v, rem) =>
      match skipWs rem with
      | ',' :: rem2 =>
        match parseJsonElems fuel rem2 with
        | some (es, rem3) => some (v :: es, rem3)
        | none => none
      | ']' :: rem2 => some ([v], rem2)
      | _ => none
    | none => none

end

/-- Model of `json.loads` on a whole string: one value consuming all input. -/
def jsonLoads (s : String) : Option Json :=
  match parseJsonValue (s.data.length + 1) s.data with
  | some (v, rem) => if (skipWs rem).isEmpty then some v else none
  | none => none

/-- Shallow rendering standing in for Python `str(result)`; it only feeds the
`description` field of fallback responses, which no claim inspects. -/
def pyStrShallow (j : Json) : String :=
  match j with
  | .null => "None"
  | .bool _ => "bool"
  | .num _ _ => "number"
  | .str s => s
  | .arr _ => "list"
  | .obj _ => "dict"

/-- Association lookup in a JSON object. -/
def jsonLookup (ms : List (String × Json)) (key : String) : Option Json :=
  match ms.find? (fun p => p.1 == key) with
  | some p => some p.2
  | none => none

/-- Build `DetectArtworkResponse(title=data.get("title",""), ...)` from a
parsed dict; `none` models the pydantic validation error raised (and caught
by the inner except) when a present value has an incoercible type. -/
def mkDetectResp (ms : List (String × Json)) : Option DetectArtworkResponse :=
  let title :=
    match jsonLookup ms "title" with
    | none => some ""
    | some (.str s) => some s
    | some _ => none
  let description :=
    match jsonLookup ms "description" with
    | none => some ""
    | some (.str s) => some s
    | some _ => none
  let confidence :=
    match jsonLookup ms "confidence" with
    | none => some ((50 : Int), "")
    | some (.num i f) => some (i, f)
    | some _ => none
  match title, description, confidence with
  | some t, some d, some c => some ⟨t, d, c⟩
  | _, _, _ => none

/-- Outcome of the outbound `requests.post` call to the Overshoot API, as
seen by the handler. -/
inductive UpstreamOutcome where
  | noApiKey : UpstreamOutcome
  | requestExc : UpstreamOutcome
  | httpNotOk (status : Nat) : UpstreamOutcome
  | bodyNotJson : UpstreamOutcome
  | okJson (result : Json) : UpstreamOutcome

/-- The uniform fallback produced by the outer `except` clause. -/
def detectFallback : DetectArtworkResponse := ⟨"", "Detection unavailable", (0, "")⟩

/-- Inner-except fallback: empty title, `str(result)` description, zero
confidence. -/
def detectParseFallback (result : Json) : DetectArtworkResponse :=
  ⟨"", pyStrShallow result, (0, "")⟩

/-- Evaluation of `result.get("result", result.get("content", ...))` on a dict
reply: the inner `get` is evaluated first, and the final default is the
two-character string of an opening and a closing brace. -/
def detectContent (ms : List (String × Json)) : Json :=
  match jsonLookup ms "result" with
  | some v => v
  | none =>
    match jsonLookup ms "content" with
    | some v => v
    | none => .str "\x7b\x7d"

/-- Processing of `result` inside the inner try of the handler. -/
def detectProcessResult (result : Json) : DetectArtworkResponse :=
  match result with
  | .obj ms =>
    match detectContent ms with
    | .str s =>
      match extractBraced s.data with
      | some candidate =>
        match jsonLoads (String.mk candidate) with
        | some (.obj d) =>
          match mkDetectResp d with
          | some resp => resp
          | none => detectParseFallback result
        | some _ => detectParseFallback result
        | none => detectParseFallback result
      | none => ⟨"", s, (50, "")⟩
    | .obj d =>
      match mkDetectResp d with
      | some resp => resp
      | none => detectParseFallback result
    | _ => detectParseFallback result
  | _ => detectParseFallback result

/-- Handler of POST /api/detect-artwork (`detect_artwork` in
src/backend/main.py).  Raising paths (missing API key, request exception,
non-success status, non-JSON body) all fall into the outer `except`, which
answers success with empty title and zero confidence; parse failures on a
JSON body fall into the inner `except` with the same title/confidence.  The
handler never surfaces an error. -/
def detect_artwork (o : UpstreamOutcome) : Except HttpError DetectArtworkResponse :=
  .ok (match o with
  | .noApiKey => detectFallback
  | .requestExc => detectFallback
  | .httpNotOk _ => detectFallback
  | .bodyNotJson => detectFallback
  | .okJson result => detectProcessResult result)

/-- The failure modes the claim enumerates: configuration missing, transport
failure, non-success status, and malformed replies (a body that is not JSON,
a non-dict body, a non-string non-dict content value, or an embedded JSON
fragment `json.loads` rejects or pydantic refuses). -/
def detectFailureMode (o : UpstreamOutcome) : Bool :=
  match o with
  | .noApiKey => true
  | .requestExc => true
  | .httpNotOk _ => true
  | .bodyNotJson => true
  | .okJson result =>
    match result with
    | .obj ms =>
      match detectContent ms with
      | .str s =>
        match extractBraced s.data with
        | some candidate =>
          match jsonLoads (String.mk candidate) with
          | some (.obj d) => (mkDetectResp d).isNone
          | some _ => true
          | none => true
        | none => false
      | .obj d => (mkDetectResp d).isNone
      | _ => true
    | _ => true

/-! ## Helper lemmas -/

theorem stripLead_append (p l : List Char) : stripLead p (p ++ l) = some l := by
  induction p with
  | nil => rfl
  | cons c ps ih => simp [stripLead, ih]

theorem find?_updateDocs (docs : List AnalysisDoc) (oid : String)
    (f : AnalysisDoc → AnalysisDoc) (d : AnalysisDoc)
    (hoid : ∀ x, (f x).oid = x.oid)
    (h : docs.find? (fun x => x.oid == oid) = some d) :
    (updateDocs docs oid f).find? (fun x => x.oid == oid) = some (f d) := by
  induction docs with
  | nil => simp [List.find?] at h
  | cons x rest ih =>
    unfold updateDocs
    by_cases hx : (x.oid == oid) = true
    · have hfx : ((f x).oid == oid) = true := by rw [hoid x]; exact hx
      rw [if_pos hx]
      rw [List.find?_cons] at h
      simp only [hx, Option.some.injEq] at h
      subst h
      rw [List.find?_cons]
      simp only [hfx]
    · have hxf : (x.oid == oid) = false := by
        cases hb : (x.oid == oid)
        · rfl
        · exact absurd hb hx
      rw [if_neg hx]
      rw [List.find?_cons] at h
      rw [List.find?_cons]
      simp only [hxf] at h ⊢
      exact ih h

/-! ## The claims -/

/-- Claim C1 (code bug): the spec says two upsert calls with the same
`(image_name, analysis_type)` leave exactly one record with the latest
descriptions, but `create_or_update_image_analysis` evaluates
`datetime.now(datetime.timezone.utc)` — an `AttributeError`, since the
imported `datetime` class has no `timezone` attribute — on every invocation,
so both calls answer 500 and zero records exist under the key afterwards. -/
theorem claim_C1 :
    (create_or_update_image_analysis true emptyStore
        ⟨none, none, "starry-night", "museum", some ["first"], some []⟩).2 =
      .error ⟨500,
        "Failed to save or update analysis: type object datetime has no attribute timezone"⟩ ∧
    (create_or_update_image_analysis true
        (create_or_update_image_analysis true emptyStore
            ⟨none, none, "starry-night", "museum", some ["first"], some []⟩).1
        ⟨none, none, "starry-night", "museum", some ["second"], some []⟩).2 =
      .error ⟨500,
        "Failed to save or update analysis: type object datetime has no attribute timezone"⟩ ∧
    countByKey
        (create_or_update_image_analysis true
            (create_or_update_image_analysis true emptyStore
                ⟨none, none, "starry-night", "museum", some ["first"], some []⟩).1
            ⟨none, none, "starry-night", "museum", some ["second"], some []⟩).1
        "starry-night" "museum" = 0 :=
  ⟨rfl, rfl, rfl⟩

/-- Claim C2 (code bug): the spec says a well-formed but absent id gives a
404 and a malformed id a 500.  The malformed half holds, but the 404 raised
inside the `try` block of `get_analysis_by_id` is caught by its own blanket
`except Exception` and re-raised as a 500, so the absent well-formed id
`"0123456789abcdef01234567"` on an empty store also answers 500. -/
theorem claim_C2 :
    isValidObjectId "0123456789abcdef01234567" = true ∧
    findDoc emptyStore "0123456789abcdef01234567" = none ∧
    get_analysis_by_id true emptyStore "0123456789abcdef01234567" =
      .error ⟨500, "Failed to retrieve analysis: 404: Analysis not found"⟩ ∧
    isValidObjectId "not-a-valid-object-id" = false ∧
    get_analysis_by_id true emptyStore "not-a-valid-object-id" =
      .error ⟨500, "Failed to retrieve analysis: InvalidId"⟩ :=
  ⟨by decide, rfl, rfl, by decide, rfl⟩

/-- Claim C3 (code bug): the claim — like the code's own comments at lines
165-166 and 170 — says Create degrades to a locally fabricated `mock_`
identifier and never fails the caller when the store is unreachable; but the
function-scoped datetime import makes every call raise `UnboundLocalError`
while building the document, so the caller always receives a 500, the mock
path is unreachable, and nothing is persisted, whatever the store state. -/
theorem claim_C3 (avail : Bool) (s : Store) (req : ImageAnalysisRequest) :
    (create_image_analysis avail s req).1 = s ∧
    (create_image_analysis avail s req).2 = .error ⟨500, "Internal Server Error"⟩ :=
  ⟨rfl, rfl⟩

theorem findDoc_after_update (s : Store) (analysis_id : String)
    (u : ImageAnalysisUpdate) (t : DateTime) (d : AnalysisDoc)
    (hfind : findDoc s analysis_id = some d) :
    findDoc ⟨updateDocs s.docs analysis_id (applyUpdate u t), s.nextOid⟩ analysis_id =
      some (applyUpdate u t d) :=
  find?_updateDocs s.docs analysis_id (applyUpdate u t) d (fun _ => rfl) hfind

/-- Claim C6 (confirmed): a PUT carrying only `metadata` leaves the stored
record's `descriptions` unchanged and refreshes `updated_at` to the fresh
clock reading, which strictly exceeds the previous value whenever the clock
advanced since the last write (`hclock`). -/
theorem claim_C6 (t : DateTime) (s : Store) (analysis_id : String)
    (m : List (String × Json)) (d : AnalysisDoc)
    (hvalid : isValidObjectId analysis_id = true)
    (hfind : findDoc s analysis_id = some d)
    (hclock : dtLt d.updated_at t) :
    findDoc (update_analysis true t s analysis_id ⟨none, some m⟩).1 analysis_id =
      some { d with updated_at := t, metadata := m } ∧
    ({ d with updated_at := t, metadata := m } : AnalysisDoc).descriptions =
      d.descriptions ∧
    dtLt d.updated_at
      ({ d with updated_at := t, metadata := m } : AnalysisDoc).updated_at ∧
    (update_analysis true t s analysis_id ⟨none, some m⟩).2 =
      .ok (serialize_doc { d with updated_at := t, metadata := m }) := by
  have hfd := findDoc_after_update s analysis_id ⟨none, some m⟩ t d hfind
  simp only [update_analysis, hvalid, if_true, ite_true, hfind, hfd]
  refine ⟨?_, ?_, ?_, ?_⟩ <;> first | exact hclock | trivial

/-- Claim C6 witness: a concrete store, record, and later clock reading. -/
theorem claim_C6_witness :
    isValidObjectId "0123456789abcdef01234567" = true ∧
    findDoc ⟨[⟨"0123456789abcdef01234567", "img", "museum", ["a"], [], none, none,
        ⟨2024, 6, 1, 12, 0, 0, 0⟩, ⟨2024, 6, 1, 12, 0, 0, 0⟩⟩], 1⟩
      "0123456789abcdef01234567" =
      some ⟨"0123456789abcdef01234567", "img", "museum", ["a"], [], none, none,
        ⟨2024, 6, 1, 12, 0, 0, 0⟩, ⟨2024, 6, 1, 12, 0, 0, 0⟩⟩ ∧
    dtLt ⟨2024, 6, 1, 12, 0, 0, 0⟩ ⟨2024, 6, 1, 12, 0, 1, 0⟩ ∧
    findDoc (update_analysis true ⟨2024, 6, 1, 12, 0, 1, 0⟩
        ⟨[⟨"0123456789abcdef01234567", "img", "museum", ["a"], [], none, none,
            ⟨2024, 6, 1, 12, 0, 0, 0⟩, ⟨2024, 6, 1, 12, 0, 0, 0⟩⟩], 1⟩
        "0123456789abcdef01234567" ⟨none, some [("k", Json.str "v")]⟩).1
      "0123456789abcdef01234567" =
      some ⟨"0123456789abcdef01234567", "img", "museum", ["a"],
        [("k", Json.str "v")], none, none,
        ⟨2024, 6, 1, 12, 0, 0, 0⟩, ⟨2024, 6, 1, 12, 0, 1, 0⟩⟩ :=
  ⟨by decide, rfl, by decide,
    (claim_C6 ⟨2024, 6, 1, 12, 0, 1, 0⟩
      ⟨[⟨"0123456789abcdef01234567", "img", "museum", ["a"], [], none, none,
          ⟨2024, 6, 1, 12, 0, 0, 0⟩, ⟨2024, 6, 1, 12, 0, 0, 0⟩⟩], 1⟩
      "0123456789abcdef01234567" [("k", Json.str "v")]
      ⟨"0123456789abcdef01234567", "img", "museum", ["a"], [], none, none,
        ⟨2024, 6, 1, 12, 0, 0, 0⟩, ⟨2024, 6, 1, 12, 0, 0, 0⟩⟩
      (by decide) rfl (by decide)).1⟩

/-- Claim C10 (confirmed, implicit): a PUT whose body carries neither
`descriptions` nor `metadata` still rewrites the stored record, refreshing
`updated_at` to the fresh clock reading; whenever that reading differs from
the stored one, the stored record changes, so an empty partial update is not
a no-op. -/
theorem claim_C10 (t : DateTime) (s : Store) (analysis_id : String) (d : AnalysisDoc)
    (hvalid : isValidObjectId analysis_id = true)
    (hfind : findDoc s analysis_id = some d) :
    findDoc (update_analysis true t s analysis_id ⟨none, none⟩).1 analysis_id =
      some { d with updated_at := t } ∧
    (update_analysis true t s analysis_id ⟨none, none⟩).2 =
      .ok (serialize_doc { d with updated_at := t }) ∧
    (t ≠ d.updated_at →
      findDoc (update_analysis true t s analysis_id ⟨none, none⟩).1 analysis_id ≠
        some d) := by
  have hfd := findDoc_after_update s analysis_id ⟨none, none⟩ t d hfind
  simp only [update_analysis, hvalid, if_true, ite_true, hfind, hfd]
  refine ⟨rfl, rfl, ?_⟩
  intro hne hcon
  have h1 : ({ d with updated_at := t } : AnalysisDoc) = d := by
    have := Option.some.inj hcon
    exact this
  have h2 := congrArg AnalysisDoc.updated_at h1
  exact hne h2

/-- Claim C10 witness: the empty partial update at a concrete record. -/
theorem claim_C10_witness :
    findDoc (update_analysis true ⟨2024, 6, 1, 12, 0, 2, 0⟩
        ⟨[⟨"0123456789abcdef01234567", "img", "museum", ["a"], [], none, none,
            ⟨2024, 6, 1, 12, 0, 0, 0⟩, ⟨2024, 6, 1, 12, 0, 0, 0⟩⟩], 1⟩
        "0123456789abcdef01234567" ⟨none, none⟩).1
      "0123456789abcdef01234567" =
      some ⟨"0123456789abcdef01234567", "img", "museum", ["a"], [], none, none,
        ⟨2024, 6, 1, 12, 0, 0, 0⟩, ⟨2024, 6, 1, 12, 0, 2, 0⟩⟩ :=
  (claim_C10 ⟨2024, 6, 1, 12, 0, 2, 0⟩
    ⟨[⟨"0123456789abcdef01234567", "img", "museum", ["a"], [], none, none,
        ⟨2024, 6, 1, 12, 0, 0, 0⟩, ⟨2024, 6, 1, 12, 0, 0, 0⟩⟩], 1⟩
    "0123456789abcdef01234567"
    ⟨"0123456789abcdef01234567", "img", "museum", ["a"], [], none, none,
      ⟨2024, 6, 1, 12, 0, 0, 0⟩, ⟨2024, 6, 1, 12, 0, 0, 0⟩⟩
    (by decide) rfl).1

/-- Claim C5 (code bug): the claim speaks of the `created_at` and
`updated_at` returned for a record created via Create, but the handler never
returns a record at all: every call raises `UnboundLocalError` at line 151
because the import at line 167 makes `datetime` function-local (see
`create_image_analysis`), so no response carrying those fields exists and
the clock readings the claim compares are never even taken. -/
theorem claim_C5 (avail : Bool) (s : Store) (req : ImageAnalysisRequest) :
    (create_image_analysis avail s req).2.isOk = false :=
  rfl

/-- Claim C7 counterexample: against `listDemoStore`, which holds exactly one
record, of type "museum", (a) a List request with limit=0 returns that record
— the driver treats 0 as "no limit" — not the empty list; (b) a List request
with analysis_type="" returns the same single record as an unfiltered
request, although no stored record has the empty type, so the empty string
acts as "no filter" rather than as an exact filter value. -/
theorem claim_C7_counterexample :
    Except.map (fun l => l.length) (get_all_analyses true listDemoStore none 0) =
      Except.ok 1 ∧
    get_all_analyses true listDemoStore (some "") 50 =
      get_all_analyses true listDemoStore none 50 ∧
    Except.map (fun l => l.length)
      (get_all_analyses true listDemoStore (some "") 50) = Except.ok 1 ∧
    List.filter (fun d => d.analysis_type == "") listDemoStore.docs = [] :=
  ⟨rfl, rfl, rfl, rfl⟩

/-- Claim C7 as amended: every List request — filtered or not — returns
records ordered newest-`created_at`-first, with at most `limit` records when
`limit` is positive (default 50); when a non-empty `analysis_type` is
supplied all returned records carry exactly that type, while an empty
`analysis_type` (falsy in the handler) acts as no filter; and `limit=0` is
passed to the driver as "no limit", returning every matching record rather
than an empty list. -/
theorem claim_C7 (s : Store) (ty : Option String) (lim : Int) :
    get_all_analyses true s ty lim =
      .ok ((get_all_docs s ty lim).map serialize_doc) ∧
    (0 < lim → (get_all_docs s ty lim).length ≤ lim.toNat) ∧
    List.Sorted newestFirst (get_all_docs s ty lim) ∧
    (∀ t, ty = some t → t ≠ "" →
      ∀ d ∈ get_all_docs s ty lim, d.analysis_type = t) ∧
    (lim = 0 → get_all_docs s ty lim =
      List.insertionSort newestFirst (queryFilter s ty)) ∧
    get_all_docs s (some "") lim = get_all_docs s none lim := by
  haveI : IsTotal AnalysisDoc newestFirst :=
    ⟨fun a b => Nat.le_total (dtKey b.created_at) (dtKey a.created_at)⟩
  haveI : IsTrans AnalysisDoc newestFirst :=
    ⟨fun _ _ _ hab hbc => le_trans hbc hab⟩
  have hsorted : List.Sorted newestFirst
      (List.insertionSort newestFirst (queryFilter s ty)) :=
    List.sorted_insertionSort newestFirst _
  refine ⟨rfl, ?_, ?_, ?_, ?_, ?_⟩
  · intro hlim
    unfold get_all_docs mongoLimit
    rw [if_neg (by omega : ¬ lim = 0)]
    have := List.length_take lim.natAbs
      (List.insertionSort newestFirst (queryFilter s ty))
    omega
  · unfold get_all_docs mongoLimit
    by_cases h0 : lim = 0
    · rw [if_pos h0]; exact hsorted
    · rw [if_neg h0]
      exact hsorted.sublist (List.take_sublist _ _)
  · intro t hty hne d hd
    subst hty
    have hbeq : (t == "") = false := by simp [hne]
    have hq : queryFilter s (some t) =
        s.docs.filter (fun x => x.analysis_type == t) := by
      unfold queryFilter
      dsimp only
      rw [hbeq]
      simp only [Bool.false_eq_true, if_false, ite_false]
    unfold get_all_docs mongoLimit at hd
    have hmem : d ∈ List.insertionSort newestFirst (queryFilter s (some t)) := by
      by_cases h0 : lim = 0
      · rw [if_pos h0] at hd; exact hd
      · rw [if_neg h0] at hd; exact List.mem_of_mem_take hd
    rw [hq] at hmem
    have hperm := List.perm_insertionSort newestFirst
      (s.docs.filter (fun x => x.analysis_type == t))
    have hmem2 := (hperm.mem_iff).1 hmem
    have hmem3 := List.mem_filter.1 hmem2
    exact eq_of_beq hmem3.2
  · intro h0
    unfold get_all_docs mongoLimit
    rw [if_pos h0]
  · unfold get_all_docs
    rfl

/-- Claim C7 witness: the amended theorem exercised at the one-record store,
with the exact-filter conjunct at the non-empty type "museum" and the length
bound at the positive limit 2. -/
theorem claim_C7_witness :
    (∀ d ∈ get_all_docs listDemoStore (some "museum") 2,
      d.analysis_type = "museum") ∧
    (get_all_docs listDemoStore (some "museum") 2).length ≤ (2 : Int).toNat :=
  ⟨fun d hd => (claim_C7 listDemoStore (some "museum") 2).2.2.2.1 "museum" rfl
      (by decide) d hd,
   (claim_C7 listDemoStore (some "museum") 2).2.1 (by decide)⟩

/-- Claim C8 (confirmed): uploading a payload whose (optionally
data-URL-stripped) base64 body decodes successfully yields a URL under the
static mount, and fetching that URL returns exactly the decoded bytes. -/
theorem claim_C8 (imageId : String) (fs : FileSys) (input payload : String)
    (bytes : List Nat)
    (hstrip : stripDataUrl input = some payload)
    (hdec : b64decode payload = some bytes) :
    (upload_temp_image imageId fs ⟨input⟩).2 =
      .ok ⟨"http://localhost:8000/temp_images/" ++ (imageId ++ ".jpg"), imageId⟩ ∧
    serveTempImage (upload_temp_image imageId fs ⟨input⟩).1
      ("http://localhost:8000/temp_images/" ++ (imageId ++ ".jpg")) = some bytes := by
  unfold upload_temp_image
  rw [hstrip]
  dsimp only
  rw [hdec]
  dsimp only
  refine ⟨rfl, ?_⟩
  unfold serveTempImage
  rw [String.data_append, stripLead_append]
  dsimp only
  unfold fsWrite
  show List.lookup (imageId ++ ".jpg")
      ((imageId ++ ".jpg", bytes) ::
        List.filter (fun p => decide (p.1 ≠ imageId ++ ".jpg")) fs) = some bytes
  simp [List.lookup]

/-- Claim C8 witness: a concrete data-URL-prefixed upload of the single byte
65 ("QQ==") fetched back. -/
theorem claim_C8_witness :
    serveTempImage
      (upload_temp_image "pic1" [] ⟨"data:image/jpeg;base64,QQ=="⟩).1
      ("http://localhost:8000/temp_images/" ++ ("pic1" ++ ".jpg")) = some [65] :=
  (claim_C8 "pic1" [] "data:image/jpeg;base64,QQ==" "QQ==" [65] rfl rfl).2

/-- Claim C9 (confirmed): when the (stripped) payload is malformed base64
the decode raises and the blanket `except` answers 400 with an explanatory
message, writing nothing. -/
theorem claim_C9 (imageId : String) (fs : FileSys) (input payload : String)
    (hstrip : stripDataUrl input = some payload)
    (hdec : b64decode payload = none) :
    (upload_temp_image imageId fs ⟨input⟩).1 = fs ∧
    (upload_temp_image imageId fs ⟨input⟩).2 =
      .error ⟨400, "Failed to upload image: Invalid base64-encoded string"⟩ := by
  unfold upload_temp_image
  rw [hstrip]
  dsimp only
  rw [hdec]
  exact ⟨rfl, rfl⟩

/-- Claim C9 witness: "abc" leaves one leftover base64 character, which
`b64decode` rejects. -/
theorem claim_C9_witness :
    (upload_temp_image "pic2" [] ⟨"abc"⟩).2 =
      .error ⟨400, "Failed to upload image: Invalid base64-encoded string"⟩ :=
  (claim_C9 "pic2" [] "abc" "abc" rfl rfl).2

/-- Title of a detect response (an error carries no title; the handler never
produces one). -/
def respTitle (r : Except HttpError DetectArtworkResponse) : String :=
  match r with
  | .ok resp => resp.title
  | .error _ => "error"

/-- Confidence of a detect response. -/
def respConfidence (r : Except HttpError DetectArtworkResponse) : Int × String :=
  match r with
  | .ok resp => resp.confidence
  | .error _ => (-1, "error")

/-- Claim C4 (confirmed): the detect handler never fails outwardly, and
every failure mode — missing API key, transport failure or timeout
(unreachable endpoint), non-success upstream status, and malformed replies
whose parsing raises — is converted into a successful response with empty
title and zero confidence. -/
theorem claim_C4 (o : UpstreamOutcome) :
    (detect_artwork o).isOk = true ∧
    detect_artwork .noApiKey = .ok ⟨"", "Detection unavailable", (0, "")⟩ ∧
    detect_artwork .requestExc = .ok ⟨"", "Detection unavailable", (0, "")⟩ ∧
    (∀ st : Nat, detect_artwork (.httpNotOk st) =
      .ok ⟨"", "Detection unavailable", (0, "")⟩) ∧
    detect_artwork .bodyNotJson = .ok ⟨"", "Detection unavailable", (0, "")⟩ ∧
    (detectFailureMode o = true →
      respTitle (detect_artwork o) = "" ∧
      respConfidence (detect_artwork o) = (0, "")) := by
  refine ⟨?_, rfl, rfl, fun st => rfl, rfl, ?_⟩
  · cases o <;> rfl
  intro hfail
  cases o with
  | noApiKey => exact ⟨rfl, rfl⟩
  | requestExc => exact ⟨rfl, rfl⟩
  | httpNotOk st => exact ⟨rfl, rfl⟩
  | bodyNotJson => exact ⟨rfl, rfl⟩
  | okJson result =>
    cases result with
    | null => exact ⟨rfl, rfl⟩
    | bool b => exact ⟨rfl, rfl⟩
    | num i f => exact ⟨rfl, rfl⟩
    | str s => exact ⟨rfl, rfl⟩
    | arr es => exact ⟨rfl, rfl⟩
    | obj ms =>
      unfold detectFailureMode at hfail
      unfold respTitle respConfidence detect_artwork detectProcessResult
      dsimp only at hfail ⊢
      cases hc : detectContent ms with
      | str s =>
        rw [hc] at hfail
        dsimp only at hfail ⊢
        cases he : extractBraced s.data with
        | none =>
          rw [he] at hfail
          exact absurd hfail (by simp)
        | some cand =>
          rw [he] at hfail
          dsimp only at hfail ⊢
          cases hl : jsonLoads (String.mk cand) with
          | none => exact ⟨rfl, rfl⟩
          | some j =>
            rw [hl] at hfail
            cases j with
            | obj d =>
              dsimp only at hfail ⊢
              cases hm : mkDetectResp d with
              | none => exact ⟨rfl, rfl⟩
              | some resp =>
                rw [hm] at hfail
                exact absurd hfail (by simp)
            | null => exact ⟨rfl, rfl⟩
            | bool b => exact ⟨rfl, rfl⟩
            | num i f => exact ⟨rfl, rfl⟩
            | str s2 => exact ⟨rfl, rfl⟩
            | arr es => exact ⟨rfl, rfl⟩
      | obj d =>
        rw [hc] at hfail
        dsimp only at hfail ⊢
        cases hm : mkDetectResp d with
        | none => exact ⟨rfl, rfl⟩
        | some resp =>
          rw [hm] at hfail
          exact absurd hfail (by simp)
      | null => exact ⟨rfl, rfl⟩
      | bool b => exact ⟨rfl, rfl⟩
      | num i f => exact ⟨rfl, rfl⟩
      | arr es => exact ⟨rfl, rfl⟩

/-- Claim C4 witness: the missing-API-key failure mode gives the empty
title and zero confidence. -/
theorem claim_C4_witness :
    respTitle (detect_artwork .noApiKey) = "" ∧
    respConfidence (detect_artwork .noApiKey) = (0, "") :=
  (claim_C4 .noApiKey).2.2.2.2.2 rfl
